import Mathlib

/-!
Shallow embedding of `usincometax/taxexchangeformat.py` (Tax Exchange Format
writer).  The Python module prints lines to the console; here every write
operation is modelled as the list of line payloads handed to `_txf_write`, in
emission order, and the printing layer `_txf_write(s)` (which appends the TXF
line terminator `\r\n`) is the function `txf_write`.
-/

namespace TXF

/-- The character-removal predicate of `_txf_normalize_amount`:
`amount.translate({36: None, 44: None, 45: None})` deletes `$` (36), `,` (44)
and `-` (45); a character is kept iff this predicate holds. -/
def keepChar (c : Char) : Bool :=
  !(c = '$' || c = ',' || c = '-')

/-- Embeds `_txf_normalize_amount`: remove every `$`, `,`, `-`, then prepend
`0` when the result starts with `.`. -/
def txf_normalize_amount (amount : String) : String :=
  let stripped : List Char := amount.data.filter keepChar
  if stripped.head? = some '.' then String.mk ('0' :: stripped)
  else String.mk stripped

/-- Embeds `_txf_expense`: normalize, then prefix `-` unless the normalized
amount is literally `0.00`. -/
def txf_expense (amount : String) : String :=
  let a := txf_normalize_amount amount
  if a = "0.00" then a else "-" ++ a

/-- Embeds `_txf_income`: just the normalized amount. -/
def txf_income (amount : String) : String :=
  txf_normalize_amount amount

/-- Python `str.lstrip()` whitespace test, for the ASCII whitespace characters
(space, tab, newline, carriage return, vertical tab, form feed). -/
def pyIsSpace (c : Char) : Bool :=
  c = ' ' || c = '\t' || c = '\n' || c = '\r' || c = '\x0B' || c = '\x0C'

/-- Python `s.lstrip()`: drop leading whitespace. -/
def lstrip (s : String) : String :=
  String.mk (s.data.dropWhile pyIsSpace)

/-- Python format spec `{s:w.w}`: truncate to `w` characters, then pad on the
right with spaces to width `w` (strings left-justify by default). -/
def formatPadTrunc (s : String) (w : Nat) : String :=
  let t := s.data.take w
  String.mk (t ++ List.replicate (w - t.length) ' ')

/-- Python format spec `{s:.p}`: truncate to `p` characters, no padding. -/
def formatTrunc (s : String) (p : Nat) : String :=
  String.mk (s.data.take p)

/-- The detail f-string shared by `write_cash_donation`,
`write_federal_est_tax_payment` and `write_state_est_tax_payment`:
`f'{date:10.10} {account:30.30} {check_number:6.6} {payee:40.40}{memo:40.40} {category:.15}'`. -/
def txf_detail (date account check_number payee memo category : String) : String :=
  formatPadTrunc date 10 ++ " " ++ formatPadTrunc account 30 ++ " "
    ++ formatPadTrunc check_number 6 ++ " " ++ formatPadTrunc payee 40
    ++ formatPadTrunc memo 40 ++ " " ++ formatTrunc category 15

/-- Embeds `_txf_write_record_format_1`: the payloads passed to `_txf_write`,
in order. -/
def txf_record_format_1 (amount : String) (ref_num copy line : Nat)
    (detail : Option String) : List String :=
  [(match detail with
    | none => "TS"
    | some _ => "TD"),
   "N" ++ toString ref_num,
   "C" ++ toString copy,
   "L" ++ toString line,
   "$" ++ amount]
  ++ (match detail with
      | none => []
      | some d => ["X" ++ d])
  ++ ["^"]

/-- Embeds `_txf_write_record_format_3`: like Format 1 with a `P` description
line after the amount line. -/
def txf_record_format_3 (amount description : String) (ref_num copy line : Nat)
    (detail : Option String) : List String :=
  [(match detail with
    | none => "TS"
    | some _ => "TD"),
   "N" ++ toString ref_num,
   "C" ++ toString copy,
   "L" ++ toString line,
   "$" ++ amount,
   "P" ++ description]
  ++ (match detail with
      | none => []
      | some d => ["X" ++ d])
  ++ ["^"]

/-- Embeds `_txf_write_record_format_6`: a `D` date line after the `L` line,
then the amount line, then a `P` state line. -/
def txf_record_format_6 (date amount state : String) (ref_num copy line : Nat)
    (detail : Option String) : List String :=
  [(match detail with
    | none => "TS"
    | some _ => "TD"),
   "N" ++ toString ref_num,
   "C" ++ toString copy,
   "L" ++ toString line,
   "D" ++ date,
   "$" ++ amount,
   "P" ++ state]
  ++ (match detail with
      | none => []
      | some d => ["X" ++ d])
  ++ ["^"]

/-- Embeds `write_header` (the current date is a parameter here, already
rendered as `mm/dd/yyyy`). -/
def write_header (today program : String) : List String :=
  ["V042", "A" ++ program, "D" ++ today, "^"]

/-- Embeds `write_1099int`: one Format 3 record per present box. -/
def write_1099int (payer : String) (box_1 box_3 box_4 : Option String) : List String :=
  (match box_1 with
   | none => []
   | some b => txf_record_format_3 (txf_income b) payer 287 1 1 none)
  ++ (match box_3 with
      | none => []
      | some b => txf_record_format_3 (txf_income b) payer 288 1 1 none)
  ++ (match box_4 with
      | none => []
      | some b => txf_record_format_3 (txf_expense b) payer 616 1 1 none)

/-- Embeds `write_cash_donation`. -/
def write_cash_donation (date payee amount account check_number memo category : String) :
    List String :=
  let category := if lstrip category = "" then "Cash donation" else category
  txf_record_format_1 (txf_expense amount) 280 1 1
    (some (txf_detail date account check_number payee memo category))

/-- Embeds `write_cash_donations_summary`. -/
def write_cash_donations_summary (amount : String) : List String :=
  txf_record_format_1 (txf_expense amount) 280 1 1 none

/-- Embeds `write_federal_est_tax_payment`. -/
def write_federal_est_tax_payment
    (date amount account check_number payee memo category : String) : List String :=
  let category := if lstrip category = "" then "Fed qtr est tax" else category
  txf_record_format_6 date (txf_expense amount) "XX" 521 1 1
    (some (txf_detail date account check_number payee memo category))

/-- Embeds `write_federal_est_tax_summary`. -/
def write_federal_est_tax_summary (amount : String) : List String :=
  txf_record_format_6 "" (txf_expense amount) "XX" 521 1 1 none

/-- Embeds `write_state_est_tax_payment`. -/
def write_state_est_tax_payment
    (date amount state account check_number payee memo category : String) : List String :=
  let category := if lstrip category = "" then "Sta qtr est tax" else category
  txf_record_format_6 date (txf_expense amount) state 522 1 1
    (some (txf_detail date account check_number payee memo category))

/-- Embeds `write_state_est_tax_summary`. -/
def write_state_est_tax_summary (amount state : String) : List String :=
  txf_record_format_6 "" (txf_expense amount) state 522 1 1 none

/-- Embeds `_txf_write`: `print(obj, end='\r\n')` renders a payload as the
payload followed by the TXF line terminator CR LF. -/
def txf_write (s : String) : String :=
  s ++ "\r\n"

/-- The spec's reading of the cash-donation detail string for claim C2: the
plain concatenation of the six fields, each left-justified and
truncated/padded to widths 10, 30, 6, 40, 40, 15 respectively (no separator
spaces, category padded like the rest). -/
def spec_fixed_width_detail (date account check_number payee memo category : String) : String :=
  formatPadTrunc date 10 ++ formatPadTrunc account 30 ++ formatPadTrunc check_number 6
    ++ formatPadTrunc payee 40 ++ formatPadTrunc memo 40 ++ formatPadTrunc category 15

/-- The data of a normalized amount, unfolded: the stripped character list,
with `0` prepended when it starts with `.`. -/
theorem normalize_data (s : String) :
    (txf_normalize_amount s).data =
      if (s.data.filter keepChar).head? = some '.' then '0' :: s.data.filter keepChar
      else s.data.filter keepChar := by
  simp only [txf_normalize_amount]
  split <;> rfl

/-- Filtering with `keepChar` a second time changes nothing. -/
theorem filter_keepChar_idem (l : List Char) :
    (l.filter keepChar).filter keepChar = l.filter keepChar :=
  List.filter_eq_self.mpr fun _ ha => List.of_mem_filter ha

/-- The rendered form of a payload is the payload's characters followed by
CR LF. -/
theorem txf_write_data (s : String) : (txf_write s).data = s.data ++ ['\r', '\n'] := by
  show (s ++ "\r\n").data = _
  rw [String.data_append]

/-- Every rendered line of any payload list ends with CR LF. -/
theorem mem_map_txf_write_crlf (ls : List String) (l : String) (h : l ∈ ls.map txf_write) :
    ['\r', '\n'] <:+ l.data := by
  obtain ⟨s, _, rfl⟩ := List.mem_map.mp h
  rw [txf_write_data]
  exact List.suffix_append _ _

/-- Claim C1, counterexample: `write_federal_est_tax_summary "500.00"` emits
the jurisdiction line `PXX` after the amount line `$-500.00`, not before it
as the claim orders the lines. -/
theorem c1_counterexample :
    write_federal_est_tax_summary "500.00" =
      ["TS", "N521", "C1", "L1", "D", "$-500.00", "PXX", "^"] ∧
    (["TS", "N521", "C1", "L1", "D", "$-500.00", "PXX", "^"] : List String) ≠
      ["TS", "N521", "C1", "L1", "D", "PXX", "$-500.00", "^"] :=
  ⟨by decide, by decide⟩

/-- Claim C1, amended: every call that emits a Format 6 record
(`write_federal_est_tax_payment`, `write_state_est_tax_payment`,
`write_federal_est_tax_summary`, `write_state_est_tax_summary`) emits the
lines of Format 1 with the date line `D<date>` inserted before the amount
line and the jurisdiction line `P<jurisdiction>` inserted right after the
amount line: start tag, `N<ref>`, `C<copy>`, `L<line>`, `D<date>`,
`$<amount>`, `P<jurisdiction>`, optional `X<detail>`, `^`. -/
theorem c1_amended_format6_line_order :
    (∀ date amount account check_number payee memo category : String,
      write_federal_est_tax_payment date amount account check_number payee memo category =
        ["TD", "N521", "C1", "L1", "D" ++ date, "$" ++ txf_expense amount, "PXX",
         "X" ++ txf_detail date account check_number payee memo
           (if lstrip category = "" then "Fed qtr est tax" else category), "^"]) ∧
    (∀ date amount state account check_number payee memo category : String,
      write_state_est_tax_payment date amount state account check_number payee memo category =
        ["TD", "N522", "C1", "L1", "D" ++ date, "$" ++ txf_expense amount, "P" ++ state,
         "X" ++ txf_detail date account check_number payee memo
           (if lstrip category = "" then "Sta qtr est tax" else category), "^"]) ∧
    (∀ amount : String, write_federal_est_tax_summary amount =
        ["TS", "N521", "C1", "L1", "D" ++ "", "$" ++ txf_expense amount, "PXX", "^"]) ∧
    (∀ amount state : String, write_state_est_tax_summary amount state =
        ["TS", "N522", "C1", "L1", "D" ++ "", "$" ++ txf_expense amount, "P" ++ state, "^"]) :=
  ⟨fun _ _ _ _ _ _ _ => rfl, fun _ _ _ _ _ _ _ _ => rfl, fun _ => rfl, fun _ _ => rfl⟩

set_option maxRecDepth 10000 in
/-- Claim C2, counterexample: the detail string emitted by
`write_cash_donation` is not the plain fixed-width concatenation the claim
describes — the code separates most fields with a space and truncates the
category to 15 characters without padding it, so at this input the emitted
detail has 137 characters while the claimed concatenation has 141. -/
theorem c2_counterexample :
    write_cash_donation "01/02/2024" "Red Cross" "125.00" "Checking" "123" "note" "Charity" =
      ["TD", "N280", "C1", "L1", "$-125.00",
       "X" ++ txf_detail "01/02/2024" "Checking" "123" "Red Cross" "note" "Charity", "^"] ∧
    txf_detail "01/02/2024" "Checking" "123" "Red Cross" "note" "Charity" ≠
      spec_fixed_width_detail "01/02/2024" "Checking" "123" "Red Cross" "note" "Charity" ∧
    (txf_detail "01/02/2024" "Checking" "123" "Red Cross" "note" "Charity").length = 137 ∧
    (spec_fixed_width_detail "01/02/2024" "Checking" "123" "Red Cross" "note" "Charity").length
      = 141 :=
  ⟨by decide, by decide, by decide, by decide⟩

/-- Claim C2, amended: `write_cash_donation` emits exactly one Format 1
record with amount `asExpense(amount)` and ref_num 280, whose detail string
is date (left-justified, truncated/padded to width 10), a space, account
(width 30), a space, check number (width 6), a space, payee (width 40)
immediately followed by memo (width 40, no separating space), a space, and
the category truncated to at most 15 characters without padding; when the
supplied category is empty or whitespace-only, `Cash donation` is used. -/
theorem c2_amended_write_cash_donation
    (date payee amount account check_number memo category : String) :
    write_cash_donation date payee amount account check_number memo category =
      ["TD", "N280", "C1", "L1", "$" ++ txf_expense amount,
       "X" ++ (formatPadTrunc date 10 ++ " " ++ formatPadTrunc account 30 ++ " "
         ++ formatPadTrunc check_number 6 ++ " " ++ formatPadTrunc payee 40
         ++ formatPadTrunc memo 40 ++ " "
         ++ formatTrunc (if lstrip category = "" then "Cash donation" else category) 15),
       "^"] :=
  rfl

/-- Claim C3: `asExpense` returns the normalized amount unchanged when that
normalization is literally `0.00` and otherwise prefixes a single `-`;
`asExpense "0.00" = "0.00"`, `asExpense "125.00" = "-125.00"`,
`asExpense "$1,200.00" = "-1200.00"`, and `"0.000"`, whose normalization is
not literally `0.00`, receives the minus sign. -/
theorem c3_txf_expense_spec :
    (∀ s : String, txf_expense s =
      if txf_normalize_amount s = "0.00" then txf_normalize_amount s
      else "-" ++ txf_normalize_amount s) ∧
    txf_expense "0.00" = "0.00" ∧ txf_expense "125.00" = "-125.00" ∧
    txf_expense "$1,200.00" = "-1200.00" ∧
    txf_normalize_amount "0.000" ≠ "0.00" ∧ txf_expense "0.000" = "-0.000" :=
  ⟨fun _ => rfl, by decide, by decide, by decide, by decide, by decide⟩

/-- Claim C4: `write_1099int` emits exactly one Format 3 record per present
box — ref_num 287 for box 1, 288 for box 3, 616 for box 4, each with the
payer as description, `asIncome` applied to boxes 1 and 3 and `asExpense` to
box 4 — and nothing for an absent box; `write_1099int "Bank"` with only
box 1 set to `100.00` emits exactly one record. -/
theorem c4_write_1099int_spec :
    (∀ (payer : String) (box_1 box_3 box_4 : Option String),
      write_1099int payer box_1 box_3 box_4 =
        (match box_1 with
         | none => []
         | some b => ["TS", "N287", "C1", "L1", "$" ++ txf_income b, "P" ++ payer, "^"])
        ++ (match box_3 with
            | none => []
            | some b => ["TS", "N288", "C1", "L1", "$" ++ txf_income b, "P" ++ payer, "^"])
        ++ (match box_4 with
            | none => []
            | some b => ["TS", "N616", "C1", "L1", "$" ++ txf_expense b, "P" ++ payer, "^"])) ∧
    write_1099int "Bank" (some "100.00") none none =
      ["TS", "N287", "C1", "L1", "$100.00", "PBank", "^"] ∧
    (∀ payer : String, write_1099int payer none none none = []) := by
  refine ⟨fun payer box_1 box_3 box_4 => ?_, by decide, fun _ => rfl⟩
  cases box_1 <;> cases box_3 <;> cases box_4 <;> rfl

/-- Claim C5: the output of the normalizer contains none of `$`, `,`, `-`;
`normalize ".5" = "0.5"`; and a string containing none of those characters
and not starting with `.` passes through unchanged. -/
theorem c5_normalize_spec (s : String) :
    ('$' ∉ (txf_normalize_amount s).data ∧ ',' ∉ (txf_normalize_amount s).data ∧
     '-' ∉ (txf_normalize_amount s).data) ∧
    txf_normalize_amount ".5" = "0.5" ∧
    ((∀ c ∈ s.data, keepChar c = true) → s.data.head? ≠ some '.' →
      txf_normalize_amount s = s) := by
  have hmem : ∀ c : Char, keepChar c = false → c ∉ (txf_normalize_amount s).data := by
    intro c hc hin
    rw [normalize_data] at hin
    have hfil : c ∈ s.data.filter keepChar → False := fun h =>
      by simpa [hc] using List.of_mem_filter h
    by_cases h : (s.data.filter keepChar).head? = some '.'
    · rw [if_pos h] at hin
      rcases List.mem_cons.mp hin with h0 | hf
      · subst h0; simp [keepChar] at hc
      · exact hfil hf
    · rw [if_neg h] at hin
      exact hfil hin
  refine ⟨⟨hmem '$' (by decide), hmem ',' (by decide), hmem '-' (by decide)⟩, by decide, ?_⟩
  intro hall hhead
  apply String.ext
  rw [normalize_data]
  have hf : s.data.filter keepChar = s.data := List.filter_eq_self.mpr hall
  rw [hf, if_neg hhead]

/-- Witness for claim C5 at the clean input `12.50`: it passes through the
normalizer unchanged. -/
theorem c5_witness : txf_normalize_amount "12.50" = "12.50" :=
  (c5_normalize_spec "12.50").2.2 (by decide) (by decide)

/-- Claim C6: a Format 1 record with no detail string is exactly the 6 lines
`TS`, `N<ref>`, `C1`, `L1`, `$<amount>`, `^`; with a detail string it is 7
lines, the first `TD` and the sixth `X<detail>`. -/
theorem c6_format1_lines :
    (∀ (amount : String) (ref : Nat),
      txf_record_format_1 amount ref 1 1 none =
        ["TS", "N" ++ toString ref, "C1", "L1", "$" ++ amount, "^"] ∧
      (txf_record_format_1 amount ref 1 1 none).length = 6) ∧
    (∀ (amount : String) (ref : Nat) (d : String),
      txf_record_format_1 amount ref 1 1 (some d) =
        ["TD", "N" ++ toString ref, "C1", "L1", "$" ++ amount, "X" ++ d, "^"] ∧
      (txf_record_format_1 amount ref 1 1 (some d)).length = 7 ∧
      (txf_record_format_1 amount ref 1 1 (some d)).getD 0 "" = "TD" ∧
      (txf_record_format_1 amount ref 1 1 (some d)).getD 5 "" = "X" ++ d) :=
  ⟨fun _ _ => ⟨rfl, rfl⟩, fun _ _ _ => ⟨rfl, rfl, rfl, rfl⟩⟩

/-- Claim C7, counterexample: a category of fifteen spaces followed by `X`
is not empty or whitespace-only, so no default is substituted, yet the
category segment of the emitted detail line (the characters after the
130-character fixed prefix of the detail, i.e. after position 131 of the
`X`-prefixed line) is fifteen spaces — nonempty and whitespace-only. -/
theorem c7_counterexample :
    lstrip "               X" ≠ "" ∧
    ((write_cash_donation "01/01/2024" "Payee" "1.00" "Acct" "11" "Memo"
        "               X").getD 5 "").data.drop 131 = List.replicate 15 ' ' ∧
    (List.replicate 15 ' ' : List Char) ≠ [] ∧
    ((List.replicate 15 ' ' : List Char).all pyIsSpace) = true :=
  ⟨by decide, by decide, by decide, by decide⟩

/-- Claim C7, amended: when the caller-supplied category is empty or
whitespace-only, each detail-record writer behaves exactly as if the
kind-specific default had been supplied — `Cash donation`,
`Fed qtr est tax`, `Sta qtr est tax` — and each default's category segment
(its truncation to 15 characters) is not whitespace-only; a category whose
first 15 characters are whitespace but which holds a later non-whitespace
character is kept, and its segment can render as whitespace. -/
theorem c7_amended_category_default
    (date payee amount account check_number memo state category : String)
    (h : lstrip category = "") :
    (write_cash_donation date payee amount account check_number memo category =
      write_cash_donation date payee amount account check_number memo "Cash donation") ∧
    (write_federal_est_tax_payment date amount account check_number payee memo category =
      write_federal_est_tax_payment date amount account check_number payee memo
        "Fed qtr est tax") ∧
    (write_state_est_tax_payment date amount state account check_number payee memo category =
      write_state_est_tax_payment date amount state account check_number payee memo
        "Sta qtr est tax") ∧
    ((formatTrunc "Cash donation" 15).data.all pyIsSpace) = false ∧
    ((formatTrunc "Fed qtr est tax" 15).data.all pyIsSpace) = false ∧
    ((formatTrunc "Sta qtr est tax" 15).data.all pyIsSpace) = false := by
  refine ⟨?_, ?_, ?_, by decide, by decide, by decide⟩
  · simp [write_cash_donation, h]
  · simp [write_federal_est_tax_payment, h]
  · simp [write_state_est_tax_payment, h]

/-- Witness for the amended claim C7: a whitespace-only category is replaced
by the cash-donation default. -/
theorem c7_amended_witness :
    write_cash_donation "01/01/2024" "Payee" "1.00" "Acct" "11" "Memo" "  " =
      write_cash_donation "01/01/2024" "Payee" "1.00" "Acct" "11" "Memo" "Cash donation" :=
  (c7_amended_category_default "01/01/2024" "Payee" "1.00" "Acct" "11" "Memo" "NY" "  "
    (by decide)).1

/-- Claim C8: `write_federal_est_tax_summary "500.00"` emits one Format 6
record with ref_num 521, no detail line, date line exactly `D`, jurisdiction
line exactly `PXX`, and amount `asExpense "500.00" = "-500.00"`. -/
theorem c8_federal_summary_500 :
    write_federal_est_tax_summary "500.00" =
      ["TS", "N521", "C1", "L1", "D", "$" ++ txf_expense "500.00", "PXX", "^"] ∧
    txf_expense "500.00" = "-500.00" :=
  ⟨by decide, by decide⟩

/-- Claim C9: every line emitted by every write operation — header lines,
record lines, and each record's final `^` line — once rendered by the
printing layer, ends with the two-byte sequence CR LF. -/
theorem c9_every_line_ends_crlf :
    (∀ today program : String, ∀ l ∈ (write_header today program).map txf_write,
      ['\r', '\n'] <:+ l.data) ∧
    (∀ (payer : String) (box_1 box_3 box_4 : Option String),
      ∀ l ∈ (write_1099int payer box_1 box_3 box_4).map txf_write, ['\r', '\n'] <:+ l.data) ∧
    (∀ date payee amount account check_number memo category : String,
      ∀ l ∈ (write_cash_donation date payee amount account check_number memo category).map
        txf_write, ['\r', '\n'] <:+ l.data) ∧
    (∀ amount : String, ∀ l ∈ (write_cash_donations_summary amount).map txf_write,
      ['\r', '\n'] <:+ l.data) ∧
    (∀ date amount account check_number payee memo category : String,
      ∀ l ∈ (write_federal_est_tax_payment date amount account check_number payee memo
        category).map txf_write, ['\r', '\n'] <:+ l.data) ∧
    (∀ amount : String, ∀ l ∈ (write_federal_est_tax_summary amount).map txf_write,
      ['\r', '\n'] <:+ l.data) ∧
    (∀ date amount state account check_number payee memo category : String,
      ∀ l ∈ (write_state_est_tax_payment date amount state account check_number payee memo
        category).map txf_write, ['\r', '\n'] <:+ l.data) ∧
    (∀ amount state : String, ∀ l ∈ (write_state_est_tax_summary amount state).map txf_write,
      ['\r', '\n'] <:+ l.data) :=
  ⟨fun _ _ => mem_map_txf_write_crlf _, fun _ _ _ _ => mem_map_txf_write_crlf _,
   fun _ _ _ _ _ _ _ => mem_map_txf_write_crlf _, fun _ => mem_map_txf_write_crlf _,
   fun _ _ _ _ _ _ _ => mem_map_txf_write_crlf _, fun _ => mem_map_txf_write_crlf _,
   fun _ _ _ _ _ _ _ _ => mem_map_txf_write_crlf _, fun _ _ => mem_map_txf_write_crlf _⟩

/-- Witness for claim C9: the rendered `V042` header line ends with CR LF. -/
theorem c9_witness :
    ['\r', '\n'] <:+ (txf_write "V042").data :=
  c9_every_line_ends_crlf.1 "10/12/2026" "usincometax" (txf_write "V042")
    (by simp [write_header])

/-- Claim C10: the amount normalizer is idempotent — its output contains no
`$`, `,` or `-` and never starts with `.`, so normalizing again changes
nothing. -/
theorem c10_normalize_idempotent (s : String) :
    txf_normalize_amount (txf_normalize_amount s) = txf_normalize_amount s := by
  apply String.ext
  rw [normalize_data (txf_normalize_amount s)]
  by_cases h : (s.data.filter keepChar).head? = some '.'
  · have hd : (txf_normalize_amount s).data = '0' :: s.data.filter keepChar := by
      rw [normalize_data, if_pos h]
    rw [hd, List.filter_cons_of_pos (by decide), filter_keepChar_idem]
    simp
  · have hd : (txf_normalize_amount s).data = s.data.filter keepChar := by
      rw [normalize_data, if_neg h]
    rw [hd, filter_keepChar_idem, if_neg h]

end TXF
